import Mathlib

/-!
Shallow embedding of the `InputManager` orchestration layer of
`bbc/sofie-input-gateway` and of the base `Device` class
(`src/packages/input-manager/src/devices/device.ts`).

The manager source (`src/unnamed/part_000`) is single-threaded,
promise-driven TypeScript.  The embedding linearizes the concurrent
`Promise.all` / `Promise.allSettled` fans (each per-device attempt touches
only its own registry key, so a sequential fold over the configuration
entries produces the same registry, the same per-entry settlements and the
same overall outcome).  Integration drivers (HTTP, MIDI, Stream Deck,
X-Keys) live outside this repository; a constructed device instance is
therefore abstracted by the outcomes its methods produce (`DeviceInst`),
and observable actions (logging, method invocations on devices, manager
`trigger` emissions) are recorded in an explicit trace.
-/

set_option autoImplicit false

deriving instance DecidableEq for Except

namespace Sofie

/-- Scalar values allowed in a trigger event's `arguments` record
(`string | number | boolean` in `device.ts`). -/
inductive ArgValue where
  | str (s : String)
  | num (n : Int)
  | bool (b : Bool)
  deriving DecidableEq, Repr

/-- `TriggerEventArgs` from `device.ts`: the payload a device emits with a
`trigger` event. -/
structure TriggerEventArgs where
  triggerId : String
  arguments : Option (List (String × ArgValue))
  replacesPrevious : Option Bool
  deriving DecidableEq, Repr

/-- `TriggerEventArgs` from `part_000`: the device payload extended with the
ID of the originating device, as re-emitted by the manager. -/
structure ManagerTriggerEventArgs where
  deviceId : String
  triggerId : String
  arguments : Option (List (String × ArgValue))
  replacesPrevious : Option Bool
  deriving DecidableEq, Repr

/-- `SomeFeedback` is an externally defined tagged variant, opaque to the
manager; an abstract token suffices. -/
structure SomeFeedback where
  tag : Nat
  deriving DecidableEq, Repr

/-- A live device instance as the manager observes it.  The concrete
integrations are outside this repository, so an instance is abstracted by
the settlement each of its methods produces.  `instId` distinguishes
distinct instances created for the same device-id over time. -/
structure DeviceInst where
  instId : Nat
  initResult : Except String Unit
  destroyResult : Except String Unit
  setFeedbackResult : String → SomeFeedback → Except String Unit
  clearFeedbackResult : Except String Unit

/-- `DeviceType` from `integrations/deviceType`. -/
inductive DeviceType where
  | http
  | midi
  | streamDeck
  | xkeys
  deriving DecidableEq, Repr

/-- One entry of `Config.devices`: the type tag selecting the integration,
together with the outcome of `createNewDevice`'s dispatch to that
integration's constructor (`.error` models the constructor throwing;
the constructors themselves are external to this repository). -/
structure SomeDeviceConfig where
  type : DeviceType
  construct : Except String DeviceInst

/-- `createNewDevice` from `part_000`: dispatch on the configuration's type
tag to the external integration constructor, abstracted by the
configuration's `construct` outcome. -/
def createNewDevice (cfg : SomeDeviceConfig) : Except String DeviceInst :=
  cfg.construct

/-- Observable actions of the manager, recorded in order. -/
inductive Ev where
  | log (msg : String)
  | initCall (instId : Nat)
  | destroyCall (instId : Nat)
  | setFeedbackCall (instId : Nat) (triggerId : String) (feedback : SomeFeedback)
  | clearFeedbackCall (instId : Nat)
  | clearFeedbackDone (instId : Nat) (resolved : Bool)
  | emitTrigger (e : ManagerTriggerEventArgs)
  deriving DecidableEq, Repr

/-- The registry `this.#devices` is a JS `Record<string, Device>`: string
keys in insertion order, at most one entry per key.  It is modelled as an
association list; `lookupKey` is property read. -/
def lookupKey (k : String) : List (String × DeviceInst) → Option DeviceInst
  | [] => none
  | p :: rest => if p.1 = k then some p.2 else lookupKey k rest

/-- Property write `this.#devices[deviceId] = device`: update in place when
the key exists, append otherwise (JS insertion-order semantics). -/
def upsert (k : String) (v : DeviceInst) : List (String × DeviceInst) → List (String × DeviceInst)
  | [] => [(k, v)]
  | p :: rest => if p.1 = k then (k, v) :: rest else p :: upsert k v rest

/-- Property delete `delete this.#devices[deviceId]`. -/
def eraseKey (k : String) : List (String × DeviceInst) → List (String × DeviceInst)
  | [] => []
  | p :: rest => if p.1 = k then eraseKey k rest else p :: eraseKey k rest

/-- State owned by one `InputManager` instance: the registry, whether the
reconciliation interval is running, how many `trigger` subscribers the
manager itself has, and the trace of observable actions so far. -/
structure ManagerState where
  devices : List (String × DeviceInst)
  refreshActive : Bool
  subscriberCount : Nat
  trace : List Ev

/-- The base `Device` class of `device.ts`, whose own state is just its
event-emitter listener sets; `destroy()` only calls
`this.removeAllListeners()`. -/
structure Device where
  triggerListenerCount : Nat
  errorListenerCount : Nat
  deriving DecidableEq, Repr

namespace Device

/-- `EventEmitter.removeAllListeners()` on a base device. -/
def removeAllListeners (_d : Device) : Device :=
  { triggerListenerCount := 0, errorListenerCount := 0 }

/-- Base `Device.destroy()` (`device.ts` lines 40-42): detaches all
listeners and resolves. -/
def destroy (d : Device) : Device × Except String Unit :=
  (removeAllListeners d, .ok ())

end Device

namespace InputManager

/-- `InputManager.createDevice` (`part_000` lines 82-112), linearized.
Construction, listener wiring and registration are synchronous; then
`init()` is awaited.  The `catch` block destroys a defined instance (that
`await device.destroy()` is itself uncaught, so its rejection propagates
out of `createDevice`) and deletes the registry entry. -/
def createDevice (s : ManagerState) (deviceId : String) (cfg : SomeDeviceConfig) :
    ManagerState × Except String Unit :=
  match createNewDevice cfg with
  | .error _ =>
      ({ s with devices := eraseKey deviceId s.devices }, .ok ())
  | .ok device =>
      let s1 : ManagerState := { s with
        devices := upsert deviceId device s.devices,
        trace := s.trace ++ [Ev.initCall device.instId] }
      match device.initResult with
      | .ok _ => (s1, .ok ())
      | .error _ =>
          let s2 : ManagerState :=
            { s1 with trace := s1.trace ++ [Ev.destroyCall device.instId] }
          match device.destroyResult with
          | .ok _ => ({ s2 with devices := eraseKey deviceId s2.devices }, .ok ())
          | .error e2 => (s2, .error e2)

/-- The settlement `createDevice` produces for one configuration entry,
as a function of that entry alone (its effects touch only its own key). -/
def createDeviceOutcome (cfg : SomeDeviceConfig) : Except String Unit :=
  match createNewDevice cfg with
  | .error _ => .ok ()
  | .ok device =>
      match device.initResult with
      | .ok _ => .ok ()
      | .error _ =>
          match device.destroyResult with
          | .ok _ => .ok ()
          | .error e2 => .error e2

/-- Whether `createDevice` for this entry ends with the instance registered
(construction and `init()` both succeed). -/
def createSucceeds (cfg : SomeDeviceConfig) : Bool :=
  match createNewDevice cfg with
  | .error _ => false
  | .ok device =>
      match device.initResult with
      | .ok _ => true
      | .error _ => false

/-- The fan of `createDevice` calls issued by `init()` over all
configuration entries, linearized; returns the final state and the per-id
settlements that `Promise.all` observes. -/
def runCreates (s : ManagerState) :
    List (String × SomeDeviceConfig) → ManagerState × List (String × Except String Unit)
  | [] => (s, [])
  | (deviceId, cfg) :: rest =>
      let r := createDevice s deviceId cfg
      let rr := runCreates r.1 rest
      (rr.1, (deviceId, r.2) :: rr.2)

/-- The first rejection among a list of settlements: `Promise.all` resolves
when there is none and rejects with the first rejection otherwise. -/
def firstError : List (Except String Unit) → Option String
  | [] => none
  | .ok _ :: rest => firstError rest
  | .error e :: _ => some e

/-- `InputManager.init` (`part_000` lines 54-70): reset the registry, await
the external bitmap-feedback initialization, run every `createDevice`
attempt, and start the reconciliation interval only when `Promise.all`
resolves (a rejection skips the `setInterval` line and rejects `init`). -/
def init (s : ManagerState) (bitmapInit : Except String Unit)
    (configs : List (String × SomeDeviceConfig)) :
    ManagerState × List (String × Except String Unit) × Except String Unit :=
  let s0 : ManagerState := { s with devices := [] }
  match bitmapInit with
  | .error e => (s0, [], .error e)
  | .ok _ =>
      let r := runCreates s0 configs
      match firstError (r.2.map Prod.snd) with
      | none => ({ r.1 with refreshActive := true }, r.2, .ok ())
      | some e => (r.1, r.2, .error e)

/-- The fan of per-entry callbacks issued by `refreshDevices()`,
linearized: an entry whose id is registered returns immediately
(settlement recorded as `none`); otherwise `createDevice` runs and its
settlement is recorded. -/
def runRefresh (s : ManagerState) :
    List (String × SomeDeviceConfig) →
      ManagerState × List (String × Option (Except String Unit))
  | [] => (s, [])
  | (deviceId, cfg) :: rest =>
      match lookupKey deviceId s.devices with
      | some _ =>
          let rr := runRefresh s rest
          (rr.1, (deviceId, none) :: rr.2)
      | none =>
          let r := createDevice s deviceId cfg
          let rr := runRefresh r.1 rest
          (rr.1, (deviceId, some r.2) :: rr.2)

/-- `InputManager.refreshDevices` (`part_000` lines 72-80): runs the
per-entry callbacks under `Promise.allSettled`, which always resolves. -/
def refreshDevices (s : ManagerState) (configs : List (String × SomeDeviceConfig)) :
    ManagerState × List (String × Option (Except String Unit)) × Except String Unit :=
  let r := runRefresh s configs
  (r.1, r.2, .ok ())

/-- The `trigger` listener wired in `createDevice` (`part_000` lines
86-91): re-emit the device's payload spread together with the originating
device-id. -/
def onDeviceTrigger (s : ManagerState) (deviceId : String) (e : TriggerEventArgs) :
    ManagerState :=
  { s with trace := s.trace ++ [Ev.emitTrigger
      { deviceId := deviceId, triggerId := e.triggerId,
        arguments := e.arguments, replacesPrevious := e.replacesPrevious }] }

/-- The settling tail of the `error` listener (`part_000` lines 95-103):
`erroredDevice.destroy()` with a `.catch` that only logs, then a
`.finally` that deletes the registry entry for the closed-over id
unconditionally. -/
def errorTeardownSettle (s : ManagerState) (deviceId : String)
    (erroredDevice : DeviceInst) : ManagerState :=
  let s1 : ManagerState :=
    { s with trace := s.trace ++ [Ev.destroyCall erroredDevice.instId] }
  let s2 : ManagerState :=
    match erroredDevice.destroyResult with
    | .ok _ => s1
    | .error e => { s1 with trace := s1.trace ++
        [Ev.log ("Error when trying to destroy \"" ++ deviceId ++ "\": " ++ e)] }
  { s2 with devices := eraseKey deviceId s2.devices }

/-- The `error` listener wired in `createDevice` (`part_000` lines
92-104): log the error, then destroy and evict the errored instance. -/
def onDeviceError (s : ManagerState) (deviceId : String) (errMsg : String)
    (erroredDevice : DeviceInst) : ManagerState :=
  let s1 : ManagerState := { s with trace := s.trace ++
      [Ev.log ("Error in \"" ++ deviceId ++ "\": " ++ errMsg)] }
  errorTeardownSettle s1 deviceId erroredDevice

/-- `InputManager.destroy` (`part_000` lines 114-121): detach the
manager's own subscribers, clear the reconciliation interval, then
`Promise.all` over every registered device's `destroy()` — every destroy
is invoked, but a rejection makes the `await` throw, skipping
`this.#devices = {}` and rejecting the method with the first rejection. -/
def destroy (s : ManagerState) : ManagerState × Except String Unit :=
  let s1 : ManagerState := { s with subscriberCount := 0 }
  let s2 : ManagerState := { s1 with refreshActive := false }
  let s3 : ManagerState := { s2 with
    trace := s2.trace ++ s2.devices.map (fun p => Ev.destroyCall p.2.instId) }
  match firstError (s2.devices.map (fun p => p.2.destroyResult)) with
  | none => ({ s3 with devices := [] }, .ok ())
  | some e => (s3, .error e)

/-- `InputManager.setFeedback` (`part_000` lines 123-128): look the device
up, throw a not-found error naming the id when absent, otherwise forward
the call and propagate its settlement. -/
def setFeedback (s : ManagerState) (deviceId triggerId : String)
    (feedback : SomeFeedback) : ManagerState × Except String Unit :=
  match lookupKey deviceId s.devices with
  | none => (s, .error ("Could not find device \"" ++ deviceId ++ "\""))
  | some device =>
      ({ s with trace := s.trace ++
          [Ev.setFeedbackCall device.instId triggerId feedback] },
       device.setFeedbackResult triggerId feedback)

/-- The sequential `for ... await` loop of `clearFeedbackAll`
(`part_000` lines 130-134) over the registry entries: each device's call
starts only after the previous one settled, and a rejection aborts the
loop and propagates. -/
def runClearFeedback (s : ManagerState) :
    List (String × DeviceInst) → ManagerState × Except String Unit
  | [] => (s, .ok ())
  | (_, device) :: rest =>
      let s1 : ManagerState :=
        { s with trace := s.trace ++ [Ev.clearFeedbackCall device.instId] }
      match device.clearFeedbackResult with
      | .ok _ =>
          let s2 : ManagerState :=
            { s1 with trace := s1.trace ++ [Ev.clearFeedbackDone device.instId true] }
          runClearFeedback s2 rest
      | .error e =>
          ({ s1 with trace := s1.trace ++ [Ev.clearFeedbackDone device.instId false] },
           .error e)

/-- `InputManager.clearFeedbackAll` (`part_000` lines 130-134). -/
def clearFeedbackAll (s : ManagerState) : ManagerState × Except String Unit :=
  runClearFeedback s s.devices

/-- The trace segment a fully successful sequential `clearFeedbackAll`
pass produces: for each entry in order, its call immediately followed by
its settlement. -/
def clearTraceOf : List (String × DeviceInst) → List Ev
  | [] => []
  | (_, device) :: rest =>
      Ev.clearFeedbackCall device.instId ::
        Ev.clearFeedbackDone device.instId true :: clearTraceOf rest

end InputManager

/-! ### Concrete sample devices, configurations and manager states,
used to evaluate the model on closed inputs. -/

/-- A healthy device: everything resolves. -/
def exDevGood : DeviceInst :=
  { instId := 1, initResult := .ok (), destroyResult := .ok (),
    setFeedbackResult := fun _ _ => .ok (), clearFeedbackResult := .ok () }

/-- A device whose `init()` rejects but whose `destroy()` resolves. -/
def exDevInitFails : DeviceInst :=
  { instId := 2, initResult := .error "init failed", destroyResult := .ok (),
    setFeedbackResult := fun _ _ => .ok (), clearFeedbackResult := .ok () }

/-- A device whose `init()` rejects and whose `destroy()` also rejects. -/
def exDevInitDestroyFail : DeviceInst :=
  { instId := 3, initResult := .error "init failed",
    destroyResult := .error "teardown boom",
    setFeedbackResult := fun _ _ => .ok (), clearFeedbackResult := .ok () }

/-- A device whose `destroy()` rejects. -/
def exDevDestroyFails : DeviceInst :=
  { instId := 4, initResult := .ok (), destroyResult := .error "destroy boom",
    setFeedbackResult := fun _ _ => .ok (), clearFeedbackResult := .ok () }

/-- A device whose `clearFeedbackAll()` rejects. -/
def exDevClearFails : DeviceInst :=
  { instId := 5, initResult := .ok (), destroyResult := .ok (),
    setFeedbackResult := fun _ _ => .ok (),
    clearFeedbackResult := .error "clear failed" }

/-- A second healthy device, distinct from `exDevGood`. -/
def exDevNew : DeviceInst :=
  { instId := 6, initResult := .ok (), destroyResult := .ok (),
    setFeedbackResult := fun _ _ => .ok (), clearFeedbackResult := .ok () }

/-- Configuration entry that constructs `exDevGood`. -/
def exCfgGood : SomeDeviceConfig := { type := .midi, construct := .ok exDevGood }

/-- Configuration entry that constructs `exDevInitFails`. -/
def exCfgInitFails : SomeDeviceConfig := { type := .http, construct := .ok exDevInitFails }

/-- Configuration entry that constructs `exDevInitDestroyFail`. -/
def exCfgTeardownBoom : SomeDeviceConfig :=
  { type := .http, construct := .ok exDevInitDestroyFail }

/-- A fresh manager state: empty registry, no timer, no subscribers. -/
def exSt0 : ManagerState :=
  { devices := [], refreshActive := false, subscriberCount := 0, trace := [] }

/-- A state with one healthy registered device. -/
def exStOne : ManagerState :=
  { devices := [("a", exDevGood)], refreshActive := true, subscriberCount := 0,
    trace := [] }

/-- A state registering a device whose `destroy()` rejects. -/
def exStDestroyBad : ManagerState :=
  { devices := [("a", exDevDestroyFails)], refreshActive := true,
    subscriberCount := 1, trace := [] }

/-- A state holding, under id `"a"`, a different (newer) instance than the
errored `exDevDestroyFails` one. -/
def exStReplaced : ManagerState :=
  { devices := [("a", exDevNew)], refreshActive := true, subscriberCount := 1,
    trace := [] }

/-- A state whose first registered device rejects `clearFeedbackAll()`. -/
def exStClearBad : ManagerState :=
  { devices := [("a", exDevClearFails), ("b", exDevGood)], refreshActive := false,
    subscriberCount := 0, trace := [] }

/-- A state with two healthy registered devices. -/
def exStTwo : ManagerState :=
  { devices := [("a", exDevGood), ("b", exDevNew)], refreshActive := false,
    subscriberCount := 0, trace := [] }

/-! ### Registry (association-list) lemmas -/

@[simp] theorem lookupKey_nil (k : String) : lookupKey k [] = none := rfl

@[simp] theorem eraseKey_nil (k : String) : eraseKey k [] = [] := rfl

theorem lookupKey_eraseKey_self (k : String) (l : List (String × DeviceInst)) :
    lookupKey k (eraseKey k l) = none := by
  induction l with
  | nil => rfl
  | cons p rest ih =>
      by_cases h : p.1 = k
      · simp [eraseKey, h, ih]
      · simp [eraseKey, lookupKey, h, ih]

theorem lookupKey_eraseKey_ne (k k' : String) (l : List (String × DeviceInst))
    (h : k' ≠ k) : lookupKey k' (eraseKey k l) = lookupKey k' l := by
  induction l with
  | nil => rfl
  | cons p rest ih =>
      by_cases hp : p.1 = k
      · simp [eraseKey, hp, lookupKey, Ne.symm h, ih]
      · by_cases hq : p.1 = k'
        · simp [eraseKey, hp, lookupKey, hq, h]
        · simp [eraseKey, hp, lookupKey, hq, ih]

theorem lookupKey_upsert_self (k : String) (v : DeviceInst) (l : List (String × DeviceInst)) :
    lookupKey k (upsert k v l) = some v := by
  induction l with
  | nil => simp [upsert, lookupKey]
  | cons p rest ih =>
      by_cases h : p.1 = k
      · simp [upsert, h, lookupKey]
      · simp [upsert, h, lookupKey, ih]

theorem lookupKey_upsert_ne (k k' : String) (v : DeviceInst) (l : List (String × DeviceInst))
    (h : k' ≠ k) : lookupKey k' (upsert k v l) = lookupKey k' l := by
  induction l with
  | nil => simp [upsert, lookupKey, Ne.symm h]
  | cons p rest ih =>
      by_cases hp : p.1 = k
      · simp [upsert, hp, lookupKey, Ne.symm h]
      · by_cases hq : p.1 = k'
        · simp [upsert, hp, lookupKey, hq, h]
        · simp [upsert, hp, lookupKey, hq, ih]

/-! ### Lemmas about the manager's operations -/

namespace InputManager

theorem createDevice_snd (s : ManagerState) (deviceId : String) (cfg : SomeDeviceConfig) :
    (createDevice s deviceId cfg).2 = createDeviceOutcome cfg := by
  cases hc : cfg.construct with
  | error e => simp [createDevice, createDeviceOutcome, createNewDevice, hc]
  | ok device =>
      cases hi : device.initResult with
      | ok u => simp [createDevice, createDeviceOutcome, createNewDevice, hc, hi]
      | error e1 =>
          cases hd : device.destroyResult with
          | ok u => simp [createDevice, createDeviceOutcome, createNewDevice, hc, hi, hd]
          | error e2 => simp [createDevice, createDeviceOutcome, createNewDevice, hc, hi, hd]

theorem createDevice_lookup_ne (s : ManagerState) (deviceId k : String)
    (cfg : SomeDeviceConfig) (h : k ≠ deviceId) :
    lookupKey k (createDevice s deviceId cfg).1.devices = lookupKey k s.devices := by
  cases hc : cfg.construct with
  | error e =>
      simp [createDevice, createNewDevice, hc, lookupKey_eraseKey_ne _ _ _ h]
  | ok device =>
      cases hi : device.initResult with
      | ok u =>
          simp [createDevice, createNewDevice, hc, hi, lookupKey_upsert_ne _ _ _ _ h]
      | error e1 =>
          cases hd : device.destroyResult with
          | ok u =>
              simp [createDevice, createNewDevice, hc, hi, hd,
                lookupKey_eraseKey_ne _ _ _ h, lookupKey_upsert_ne _ _ _ _ h]
          | error e2 =>
              simp [createDevice, createNewDevice, hc, hi, hd,
                lookupKey_upsert_ne _ _ _ _ h]

theorem createDevice_lookup_self_fail (s : ManagerState) (deviceId : String)
    (cfg : SomeDeviceConfig) (hf : createSucceeds cfg = false)
    (ho : createDeviceOutcome cfg = .ok ()) :
    lookupKey deviceId (createDevice s deviceId cfg).1.devices = none := by
  cases hc : cfg.construct with
  | error e =>
      simp [createDevice, createNewDevice, hc, lookupKey_eraseKey_self]
  | ok device =>
      cases hi : device.initResult with
      | ok u =>
          exfalso
          simp [createSucceeds, createNewDevice, hc, hi] at hf
      | error e1 =>
          cases hd : device.destroyResult with
          | ok u =>
              simp [createDevice, createNewDevice, hc, hi, hd, lookupKey_eraseKey_self]
          | error e2 =>
              exfalso
              simp [createDeviceOutcome, createNewDevice, hc, hi, hd] at ho

theorem createDevice_lookup_self_ok (s : ManagerState) (deviceId : String)
    (cfg : SomeDeviceConfig) (device : DeviceInst) (hc : cfg.construct = .ok device)
    (hi : device.initResult = .ok ()) :
    lookupKey deviceId (createDevice s deviceId cfg).1.devices = some device := by
  simp [createDevice, createNewDevice, hc, hi, lookupKey_upsert_self]

theorem runCreates_results (l : List (String × SomeDeviceConfig)) :
    ∀ s : ManagerState,
      (runCreates s l).2 = l.map (fun p => (p.1, createDeviceOutcome p.2)) := by
  induction l with
  | nil => intro s; rfl
  | cons p rest ih =>
      intro s
      simp [runCreates, createDevice_snd, ih]

theorem runCreates_lookup_notmem (l : List (String × SomeDeviceConfig))
    (deviceId : String) (h : deviceId ∉ l.map Prod.fst) :
    ∀ s : ManagerState,
      lookupKey deviceId (runCreates s l).1.devices = lookupKey deviceId s.devices := by
  induction l with
  | nil => intro s; rfl
  | cons p rest ih =>
      intro s
      have hne : deviceId ≠ p.1 := by
        intro hcontra
        exact h (by simp [hcontra])
      have hrest : deviceId ∉ rest.map Prod.fst := by
        intro hcontra
        exact h (by simp [hcontra])
      calc lookupKey deviceId (runCreates s (p :: rest)).1.devices
          = lookupKey deviceId (runCreates (createDevice s p.1 p.2).1 rest).1.devices := by
            rfl
        _ = lookupKey deviceId (createDevice s p.1 p.2).1.devices := ih hrest _
        _ = lookupKey deviceId s.devices := createDevice_lookup_ne _ _ _ _ hne

theorem runCreates_lookup_fail (l : List (String × SomeDeviceConfig))
    (deviceId : String) (cfg : SomeDeviceConfig)
    (hnd : (l.map Prod.fst).Nodup) (hm : (deviceId, cfg) ∈ l)
    (hf : createSucceeds cfg = false) (ho : createDeviceOutcome cfg = .ok ()) :
    ∀ s : ManagerState, lookupKey deviceId (runCreates s l).1.devices = none := by
  induction l with
  | nil => intro s; exact absurd hm (List.not_mem_nil _)
  | cons p rest ih =>
      intro s
      rcases List.mem_cons.mp hm with hhead | htail
      · have hp1 : p.1 = deviceId := by rw [← hhead]
        have hrest : deviceId ∉ rest.map Prod.fst := by
          have := (List.nodup_cons.mp hnd).1
          rw [hp1] at this
          exact this
        have hafter : lookupKey deviceId (createDevice s p.1 p.2).1.devices = none := by
          rw [hp1]
          have hcfg : p.2 = cfg := by rw [← hhead]
          rw [hcfg]
          exact createDevice_lookup_self_fail _ _ _ hf ho
        calc lookupKey deviceId (runCreates s (p :: rest)).1.devices
            = lookupKey deviceId (runCreates (createDevice s p.1 p.2).1 rest).1.devices := rfl
          _ = lookupKey deviceId (createDevice s p.1 p.2).1.devices :=
              runCreates_lookup_notmem rest deviceId hrest _
          _ = none := hafter
      · have hid : deviceId ∈ rest.map Prod.fst :=
          List.mem_map.mpr ⟨(deviceId, cfg), htail, rfl⟩
        have hnd' : (rest.map Prod.fst).Nodup := (List.nodup_cons.mp hnd).2
        exact ih hnd' htail _

theorem firstError_eq_none (l : List (Except String Unit))
    (h : ∀ x ∈ l, x = .ok ()) : firstError l = none := by
  induction l with
  | nil => rfl
  | cons x rest ih =>
      have hx : x = .ok () := h x (List.mem_cons_self _ _)
      subst hx
      exact ih fun y hy => h y (List.mem_cons_of_mem _ hy)

theorem runRefresh_results (l : List (String × SomeDeviceConfig))
    (hnd : (l.map Prod.fst).Nodup) :
    ∀ s : ManagerState,
      (runRefresh s l).2 = l.map (fun p => (p.1,
        match lookupKey p.1 s.devices with
        | some _ => none
        | none => some (createDeviceOutcome p.2))) := by
  induction l with
  | nil => intro s; rfl
  | cons p rest ih =>
      intro s
      have hnd' : (rest.map Prod.fst).Nodup := (List.nodup_cons.mp hnd).2
      have hnotin : p.1 ∉ rest.map Prod.fst := (List.nodup_cons.mp hnd).1
      cases hl : lookupKey p.1 s.devices with
      | some device =>
          simp only [runRefresh, hl, List.map_cons]
          rw [ih hnd' s]
      | none =>
          simp only [runRefresh, hl, createDevice_snd, List.map_cons]
          rw [ih hnd' (createDevice s p.1 p.2).1]
          simp [hl]
          intro a b hab
          have hne : a ≠ p.1 := by
            intro hcontra
            exact hnotin (hcontra ▸ List.mem_map.mpr ⟨(a, b), hab, rfl⟩)
          rw [createDevice_lookup_ne _ _ _ _ hne]

theorem runRefresh_lookup_present (l : List (String × SomeDeviceConfig))
    (deviceId : String) (inst : DeviceInst) :
    ∀ s : ManagerState, lookupKey deviceId s.devices = some inst →
      lookupKey deviceId (runRefresh s l).1.devices = some inst := by
  induction l with
  | nil => intro s h; exact h
  | cons p rest ih =>
      intro s h
      cases hl : lookupKey p.1 s.devices with
      | some device =>
          simp only [runRefresh, hl]
          exact ih s h
      | none =>
          have hne : deviceId ≠ p.1 := by
            intro hcontra
            rw [hcontra, hl] at h
            exact Option.noConfusion h
          simp only [runRefresh, hl]
          exact ih _ ((createDevice_lookup_ne s p.1 deviceId p.2 hne).trans h)

theorem runClearFeedback_all_ok (l : List (String × DeviceInst))
    (h : ∀ p ∈ l, p.2.clearFeedbackResult = .ok ()) :
    ∀ s : ManagerState,
      runClearFeedback s l = ({ s with trace := s.trace ++ clearTraceOf l }, .ok ()) := by
  induction l with
  | nil => intro s; simp [runClearFeedback, clearTraceOf]
  | cons p rest ih =>
      intro s
      have hp : p.2.clearFeedbackResult = .ok () := h p (List.mem_cons_self _ _)
      have hrest : ∀ q ∈ rest, q.2.clearFeedbackResult = .ok () :=
        fun q hq => h q (List.mem_cons_of_mem _ hq)
      cases p with
      | mk name device =>
          have hp' : device.clearFeedbackResult = .ok () := hp
          simp only [runClearFeedback, hp']
          rw [ih hrest]
          simp [clearTraceOf, List.append_assoc]

end InputManager

/-! ### Claim theorems -/

/-- C9: the base `Device.destroy()` is idempotent: it always resolves, its
only effect is detaching all event listeners, and calling it a second time
(including after an earlier teardown) does not fail, does not
double-release, and leaves the device in the same state as the first
call. -/
theorem device_destroy_idempotent (d : Device) :
    (Device.destroy d).2 = .ok () ∧
    (Device.destroy d).1.triggerListenerCount = 0 ∧
    (Device.destroy d).1.errorListenerCount = 0 ∧
    Device.destroy (Device.destroy d).1 = Device.destroy d :=
  ⟨rfl, rfl, rfl, rfl⟩

/-- C7: for every trigger event a registered device emits, the manager
re-emits a trigger event whose payload is the device's payload with the
originating device-id attached and `triggerId`, `arguments` and
`replacesPrevious` preserved verbatim; in particular device `a` emitting
`triggerId = t1` yields a manager trigger with `deviceId = a` and
`triggerId = t1`. -/
theorem trigger_reemitted_with_deviceId (s : ManagerState) (deviceId : String)
    (e : TriggerEventArgs) :
    (InputManager.onDeviceTrigger s deviceId e).trace = s.trace ++
      [Ev.emitTrigger
        { deviceId := deviceId, triggerId := e.triggerId,
          arguments := e.arguments, replacesPrevious := e.replacesPrevious }] ∧
    (InputManager.onDeviceTrigger exSt0 "a"
        { triggerId := "t1", arguments := none, replacesPrevious := none }).trace =
      [Ev.emitTrigger
        { deviceId := "a", triggerId := "t1", arguments := none,
          replacesPrevious := none }] :=
  ⟨rfl, rfl⟩

/-- C4: `setFeedback` on a device-id absent from the registry fails with an
error naming the missing id and leaves the whole state (in particular the
registry) unchanged; on a present id it forwards the call to that device
and propagates that call's settlement, leaving the registry unchanged. -/
theorem setFeedback_lookup_behavior (s : ManagerState) (deviceId triggerId : String)
    (feedback : SomeFeedback) :
    match lookupKey deviceId s.devices with
    | none =>
        InputManager.setFeedback s deviceId triggerId feedback =
          (s, .error ("Could not find device \"" ++ deviceId ++ "\""))
    | some device =>
        (InputManager.setFeedback s deviceId triggerId feedback).2 =
          device.setFeedbackResult triggerId feedback ∧
        (InputManager.setFeedback s deviceId triggerId feedback).1.devices =
          s.devices := by
  cases hl : lookupKey deviceId s.devices with
  | none => simp [InputManager.setFeedback, hl]
  | some device => exact ⟨by simp [InputManager.setFeedback, hl],
      by simp [InputManager.setFeedback, hl]⟩

/-- C10: the settling tail of a device's error handler deletes the registry
entry for the closed-over device-id unconditionally: whatever instance is
registered under that id at that moment is removed, even when it is a new,
distinct instance registered by a reconciliation pass in the meantime,
while the destroy call itself was issued on the old errored instance. -/
theorem error_handler_deletes_current_entry (s : ManagerState) (deviceId : String)
    (instOld instNew : DeviceInst)
    (hreg : lookupKey deviceId s.devices = some instNew)
    (hdistinct : instNew.instId ≠ instOld.instId) :
    lookupKey deviceId (InputManager.errorTeardownSettle s deviceId instOld).devices
      = none ∧
    Ev.destroyCall instOld.instId
      ∈ (InputManager.errorTeardownSettle s deviceId instOld).trace := by
  constructor
  · cases hd : instOld.destroyResult with
    | ok u =>
        simp [InputManager.errorTeardownSettle, hd, lookupKey_eraseKey_self]
    | error e =>
        simp [InputManager.errorTeardownSettle, hd, lookupKey_eraseKey_self]
  · cases hd : instOld.destroyResult with
    | ok u => simp [InputManager.errorTeardownSettle, hd]
    | error e => simp [InputManager.errorTeardownSettle, hd]

/-- Witness for C10 at a concrete input: id `"a"` currently holds the new
instance `exDevNew` (instId 6) while the errored instance is
`exDevDestroyFails` (instId 4); the settle still removes `"a"`. -/
theorem error_handler_deletes_current_entry_witness :
    lookupKey "a" (InputManager.errorTeardownSettle exStReplaced "a" exDevDestroyFails).devices
      = none ∧
    Ev.destroyCall exDevDestroyFails.instId
      ∈ (InputManager.errorTeardownSettle exStReplaced "a" exDevDestroyFails).trace :=
  error_handler_deletes_current_entry exStReplaced "a" exDevDestroyFails exDevNew
    (by simp [exStReplaced, lookupKey]) (by decide)

/-- C3: when a registered device emits `error`, the manager logs it, calls
`destroy()` on that device, and — whether that destroy resolves or rejects
— removes the device-id from the registry once it settles; the id is then
eligible for recreation: a reconciliation pass whose configuration still
holds the id and whose creation succeeds re-registers it. -/
theorem device_error_evicts_and_allows_recreation (s : ManagerState)
    (deviceId errMsg : String) (inst : DeviceInst) (cfg : SomeDeviceConfig)
    (inst2 : DeviceInst) (hc : cfg.construct = .ok inst2)
    (hi : inst2.initResult = .ok ()) :
    Ev.log ("Error in \"" ++ deviceId ++ "\": " ++ errMsg)
      ∈ (InputManager.onDeviceError s deviceId errMsg inst).trace ∧
    Ev.destroyCall inst.instId
      ∈ (InputManager.onDeviceError s deviceId errMsg inst).trace ∧
    lookupKey deviceId (InputManager.onDeviceError s deviceId errMsg inst).devices
      = none ∧
    lookupKey deviceId
        (InputManager.refreshDevices
          (InputManager.onDeviceError s deviceId errMsg inst)
          [(deviceId, cfg)]).1.devices = some inst2 := by
  have hnone :
      lookupKey deviceId (InputManager.onDeviceError s deviceId errMsg inst).devices
        = none := by
    cases hd : inst.destroyResult with
    | ok u =>
        simp [InputManager.onDeviceError, InputManager.errorTeardownSettle, hd,
          lookupKey_eraseKey_self]
    | error e =>
        simp [InputManager.onDeviceError, InputManager.errorTeardownSettle, hd,
          lookupKey_eraseKey_self]
  refine ⟨?_, ?_, hnone, ?_⟩
  · cases hd : inst.destroyResult with
    | ok u => simp [InputManager.onDeviceError, InputManager.errorTeardownSettle, hd]
    | error e => simp [InputManager.onDeviceError, InputManager.errorTeardownSettle, hd]
  · cases hd : inst.destroyResult with
    | ok u => simp [InputManager.onDeviceError, InputManager.errorTeardownSettle, hd]
    | error e => simp [InputManager.onDeviceError, InputManager.errorTeardownSettle, hd]
  · simp only [InputManager.refreshDevices, InputManager.runRefresh, hnone]
    exact InputManager.createDevice_lookup_self_ok _ _ _ _ hc hi

/-- Witness for C3 at a concrete input: the errored instance's `destroy()`
rejects, yet the id is evicted and a later reconciliation pass with a
healthy configuration re-registers it. -/
theorem device_error_evicts_and_allows_recreation_witness :
    Ev.log ("Error in \"" ++ "a" ++ "\": " ++ "hardware gone")
      ∈ (InputManager.onDeviceError exStDestroyBad "a" "hardware gone" exDevDestroyFails).trace ∧
    Ev.destroyCall exDevDestroyFails.instId
      ∈ (InputManager.onDeviceError exStDestroyBad "a" "hardware gone" exDevDestroyFails).trace ∧
    lookupKey "a"
        (InputManager.onDeviceError exStDestroyBad "a" "hardware gone" exDevDestroyFails).devices
      = none ∧
    lookupKey "a"
        (InputManager.refreshDevices
          (InputManager.onDeviceError exStDestroyBad "a" "hardware gone" exDevDestroyFails)
          [("a", exCfgGood)]).1.devices = some exDevGood :=
  device_error_evicts_and_allows_recreation exStDestroyBad "a" "hardware gone"
    exDevDestroyFails exCfgGood exDevGood rfl rfl

/-- C1 (amended): `destroy()` detaches the manager's own subscribers,
cancels the reconciliation timer, and invokes `destroy()` on every
registered device; when every device destroy resolves the registry is left
empty, the call resolves, and a second `destroy()` is a no-op returning the
same state; when some device destroy rejects, the call rejects with the
first rejection, the registry is left unchanged and nothing is logged. -/
theorem manager_destroy_behavior (s : ManagerState) :
    (InputManager.destroy s).1.subscriberCount = 0 ∧
    (InputManager.destroy s).1.refreshActive = false ∧
    (InputManager.destroy s).1.trace =
      s.trace ++ s.devices.map (fun p => Ev.destroyCall p.2.instId) ∧
    (match InputManager.firstError (s.devices.map (fun p => p.2.destroyResult)) with
     | none =>
         (InputManager.destroy s).1.devices = [] ∧
         (InputManager.destroy s).2 = .ok () ∧
         InputManager.destroy (InputManager.destroy s).1 =
           ((InputManager.destroy s).1, .ok ())
     | some e =>
         (InputManager.destroy s).1.devices = s.devices ∧
         (InputManager.destroy s).2 = .error e) := by
  cases hfe : InputManager.firstError (s.devices.map (fun p => p.2.destroyResult)) with
  | none =>
      refine ⟨by simp [InputManager.destroy, hfe], by simp [InputManager.destroy, hfe],
        by simp [InputManager.destroy, hfe], ?_⟩
      simp only [hfe]
      refine ⟨by simp [InputManager.destroy, hfe], by simp [InputManager.destroy, hfe], ?_⟩
      simp [InputManager.destroy, hfe, InputManager.firstError]
  | some e =>
      refine ⟨by simp [InputManager.destroy, hfe], by simp [InputManager.destroy, hfe],
        by simp [InputManager.destroy, hfe], ?_⟩
      simp only [hfe]
      exact ⟨by simp [InputManager.destroy, hfe], by simp [InputManager.destroy, hfe]⟩

/-- Counterexample to C1 as stated: with one registered device whose
`destroy()` rejects, Manager `destroy()` rejects (nothing is logged, the
registry is not cleared and the entry is still present), contradicting the
claimed log-and-continue tolerance that still clears the registry. -/
theorem manager_destroy_reject_not_tolerated :
    (InputManager.destroy exStDestroyBad).2 = .error "destroy boom" ∧
    lookupKey "a" (InputManager.destroy exStDestroyBad).1.devices
      = some exDevDestroyFails ∧
    (InputManager.destroy exStDestroyBad).1.trace
      = [Ev.destroyCall exDevDestroyFails.instId] := by
  refine ⟨rfl, ?_, rfl⟩
  simp [InputManager.destroy, exStDestroyBad, InputManager.firstError, exDevDestroyFails,
    lookupKey]

/-- C2 (amended): provided every configured entry's `createDevice`
settlement resolves (in particular each failing device's teardown
`destroy()` resolves), a failure while creating or initializing one device
during `init()` is isolated to that device-id: every configured id's
creation attempt still settles, `init()` itself resolves, and each failed
id is simply absent from the registry afterwards. -/
theorem init_failure_isolated_of_teardown_ok (s : ManagerState)
    (configs : List (String × SomeDeviceConfig))
    (hnd : (configs.map Prod.fst).Nodup)
    (hok : ∀ p ∈ configs, InputManager.createDeviceOutcome p.2 = .ok ()) :
    (InputManager.init s (.ok ()) configs).2.1.map Prod.fst = configs.map Prod.fst ∧
    (InputManager.init s (.ok ()) configs).2.2 = .ok () ∧
    ∀ p ∈ configs, InputManager.createSucceeds p.2 = false →
      lookupKey p.1 (InputManager.init s (.ok ()) configs).1.devices = none := by
  have hres := InputManager.runCreates_results configs { s with devices := [] }
  have hfe : InputManager.firstError
      ((InputManager.runCreates { s with devices := [] } configs).2.map Prod.snd)
      = none := by
    apply InputManager.firstError_eq_none
    intro x hx
    rw [hres] at hx
    simp only [List.map_map, List.mem_map] at hx
    obtain ⟨p, hp, hxp⟩ := hx
    rw [← hxp]
    exact hok p hp
  refine ⟨?_, ?_, ?_⟩
  · simp only [InputManager.init, hfe]
    rw [hres]
    simp
  · simp [InputManager.init, hfe]
  · intro p hp hfail
    simp only [InputManager.init, hfe]
    exact InputManager.runCreates_lookup_fail configs p.1 p.2 hnd
      (by simpa using hp) hfail (hok p hp) _

/-- Witness for C2 at a concrete input: ids `a` (healthy) and `b` (whose
`init()` rejects, teardown resolving); both are attempted, `init()`
resolves, and `b` ends absent. -/
theorem init_failure_isolated_witness :
    (InputManager.init exSt0 (.ok ()) [("a", exCfgGood), ("b", exCfgInitFails)]).2.1.map Prod.fst
      = [("a", exCfgGood), ("b", exCfgInitFails)].map Prod.fst ∧
    (InputManager.init exSt0 (.ok ()) [("a", exCfgGood), ("b", exCfgInitFails)]).2.2
      = .ok () ∧
    ∀ p ∈ [("a", exCfgGood), ("b", exCfgInitFails)],
      InputManager.createSucceeds p.2 = false →
        lookupKey p.1
          (InputManager.init exSt0 (.ok ()) [("a", exCfgGood), ("b", exCfgInitFails)]).1.devices
          = none :=
  init_failure_isolated_of_teardown_ok exSt0 [("a", exCfgGood), ("b", exCfgInitFails)]
    (by decide) (by decide)

/-- Counterexample to C2 as stated: when `b`'s `init()` rejects and its
teardown `destroy()` also rejects, Manager `init()` itself rejects (though
the sibling `a` was still attempted) and `b` remains in the registry. -/
theorem init_rejects_when_teardown_rejects :
    (InputManager.init exSt0 (.ok ()) [("a", exCfgGood), ("bad", exCfgTeardownBoom)]).2.2
      = .error "teardown boom" ∧
    (InputManager.init exSt0 (.ok ()) [("a", exCfgGood), ("bad", exCfgTeardownBoom)]).2.1.map Prod.fst
      = ["a", "bad"] ∧
    lookupKey "bad"
        (InputManager.init exSt0 (.ok ()) [("a", exCfgGood), ("bad", exCfgTeardownBoom)]).1.devices
      = some exDevInitDestroyFail := by
  refine ⟨rfl, rfl, ?_⟩
  simp [InputManager.init, InputManager.runCreates, InputManager.createDevice,
    createNewDevice, exCfgGood, exCfgTeardownBoom, exDevGood, exDevInitDestroyFail,
    exSt0, InputManager.firstError, lookupKey, upsert]

/-- C5 (amended): during error-triggered teardown, a rejecting device
`destroy()` is logged only and the registry removal proceeds regardless;
but during teardown after a failed `init()`, the destroy rejection is not
logged, propagates out of `createDevice` (so `Promise.all` in `init()`
rejects, while `refreshDevices`' `allSettled` swallows it) and the registry
entry is not removed; and during explicit Manager `destroy()`, the
rejection propagates to the caller and the registry is not cleared. -/
theorem teardown_failure_contexts :
    (∀ (s : ManagerState) (deviceId : String) (inst : DeviceInst),
      lookupKey deviceId (InputManager.errorTeardownSettle s deviceId inst).devices
        = none ∧
      ∀ e, inst.destroyResult = .error e →
        Ev.log ("Error when trying to destroy \"" ++ deviceId ++ "\": " ++ e)
          ∈ (InputManager.errorTeardownSettle s deviceId inst).trace) ∧
    (∀ (s : ManagerState) (deviceId : String) (cfg : SomeDeviceConfig)
        (inst : DeviceInst) (e1 e2 : String),
      cfg.construct = .ok inst → inst.initResult = .error e1 →
      inst.destroyResult = .error e2 →
        InputManager.createDevice s deviceId cfg =
          ({ s with
              devices := upsert deviceId inst s.devices,
              trace := s.trace ++ [Ev.initCall inst.instId, Ev.destroyCall inst.instId] },
           .error e2)) ∧
    (∀ (s : ManagerState) (e : String),
      InputManager.firstError (s.devices.map (fun p => p.2.destroyResult)) = some e →
        (InputManager.destroy s).1.devices = s.devices ∧
        (InputManager.destroy s).2 = .error e) := by
  refine ⟨?_, ?_, ?_⟩
  · intro s deviceId inst
    constructor
    · cases hd : inst.destroyResult with
      | ok u =>
          simp [InputManager.errorTeardownSettle, hd, lookupKey_eraseKey_self]
      | error e =>
          simp [InputManager.errorTeardownSettle, hd, lookupKey_eraseKey_self]
    · intro e he
      simp [InputManager.errorTeardownSettle, he]
  · intro s deviceId cfg inst e1 e2 hc hi hd
    simp [InputManager.createDevice, createNewDevice, hc, hi, hd]
  · intro s e hfe
    exact ⟨by simp [InputManager.destroy, hfe], by simp [InputManager.destroy, hfe]⟩

/-- Witness for C5 at concrete inputs, one per context: an error-triggered
teardown whose destroy rejects still evicts and logs; `createDevice` with a
failing `init()` and rejecting `destroy()` keeps the entry, rejects and
logs nothing; Manager `destroy()` over a rejecting device keeps the
registry and rejects. -/
theorem teardown_failure_contexts_witness :
    (lookupKey "a" (InputManager.errorTeardownSettle exStDestroyBad "a" exDevDestroyFails).devices
        = none ∧
      Ev.log ("Error when trying to destroy \"" ++ "a" ++ "\": " ++ "destroy boom")
        ∈ (InputManager.errorTeardownSettle exStDestroyBad "a" exDevDestroyFails).trace) ∧
    InputManager.createDevice exSt0 "bad" exCfgTeardownBoom =
      ({ exSt0 with
          devices := upsert "bad" exDevInitDestroyFail exSt0.devices,
          trace := exSt0.trace ++ [Ev.initCall exDevInitDestroyFail.instId,
            Ev.destroyCall exDevInitDestroyFail.instId] },
       .error "teardown boom") ∧
    ((InputManager.destroy exStDestroyBad).1.devices = exStDestroyBad.devices ∧
      (InputManager.destroy exStDestroyBad).2 = .error "destroy boom") :=
  ⟨⟨(teardown_failure_contexts.1 exStDestroyBad "a" exDevDestroyFails).1,
    (teardown_failure_contexts.1 exStDestroyBad "a" exDevDestroyFails).2
      "destroy boom" rfl⟩,
   teardown_failure_contexts.2.1 exSt0 "bad" exCfgTeardownBoom exDevInitDestroyFail
     "init failed" "teardown boom" rfl rfl rfl,
   teardown_failure_contexts.2.2 exStDestroyBad "destroy boom" rfl⟩

/-- Counterexample to C5 as stated: in teardown after a failed `init()`,
the rejecting `destroy()` is propagated out of `createDevice`, nothing is
logged, and the registry entry remains — contradicting the claim that such
a rejection is logged only and that the removal proceeds regardless. -/
theorem init_teardown_reject_propagates_unlogged :
    (InputManager.createDevice exSt0 "bad" exCfgTeardownBoom).2 = .error "teardown boom" ∧
    lookupKey "bad" (InputManager.createDevice exSt0 "bad" exCfgTeardownBoom).1.devices
      = some exDevInitDestroyFail ∧
    (InputManager.createDevice exSt0 "bad" exCfgTeardownBoom).1.trace
      = [Ev.initCall exDevInitDestroyFail.instId,
         Ev.destroyCall exDevInitDestroyFail.instId] := by
  refine ⟨rfl, ?_, rfl⟩
  simp [InputManager.createDevice, createNewDevice, exCfgTeardownBoom,
    exDevInitDestroyFail, exSt0, lookupKey, upsert]

/-- C6: one `refreshDevices()` pass records, for each configured id, a
skipped settlement when the id is registered at the start of the pass and
the settlement of a fresh `createDevice` attempt when it is absent — so
creation is attempted exactly for the absent ids and each attempt's
settlement depends only on its own configuration entry; ids present at the
start keep exactly their current instance; and the pass itself always
resolves. -/
theorem refreshDevices_targets_absent_ids (s : ManagerState)
    (configs : List (String × SomeDeviceConfig))
    (hnd : (configs.map Prod.fst).Nodup) :
    (InputManager.refreshDevices s configs).2.1 =
      configs.map (fun p => (p.1,
        match lookupKey p.1 s.devices with
        | some _ => none
        | none => some (InputManager.createDeviceOutcome p.2))) ∧
    (∀ deviceId inst, lookupKey deviceId s.devices = some inst →
      lookupKey deviceId (InputManager.refreshDevices s configs).1.devices = some inst) ∧
    (InputManager.refreshDevices s configs).2.2 = .ok () := by
  refine ⟨?_, ?_, rfl⟩
  · exact InputManager.runRefresh_results configs hnd s
  · intro deviceId inst h
    exact InputManager.runRefresh_lookup_present configs deviceId inst s h

/-- Witness for C6 at a concrete input: `a` is registered (skipped,
instance untouched) while `b` is absent and attempted (its `init()`
failure settling locally, without rejecting the pass). -/
theorem refreshDevices_targets_absent_ids_witness :
    (InputManager.refreshDevices exStOne [("a", exCfgGood), ("b", exCfgInitFails)]).2.1 =
      [("a", exCfgGood), ("b", exCfgInitFails)].map (fun p => (p.1,
        match lookupKey p.1 exStOne.devices with
        | some _ => none
        | none => some (InputManager.createDeviceOutcome p.2))) ∧
    lookupKey "a"
        (InputManager.refreshDevices exStOne [("a", exCfgGood), ("b", exCfgInitFails)]).1.devices
      = some exDevGood ∧
    (InputManager.refreshDevices exStOne [("a", exCfgGood), ("b", exCfgInitFails)]).2.2
      = .ok () :=
  ⟨(refreshDevices_targets_absent_ids exStOne [("a", exCfgGood), ("b", exCfgInitFails)]
      (by decide)).1,
   (refreshDevices_targets_absent_ids exStOne [("a", exCfgGood), ("b", exCfgInitFails)]
      (by decide)).2.1 "a" exDevGood (by simp [exStOne, lookupKey]),
   (refreshDevices_targets_absent_ids exStOne [("a", exCfgGood), ("b", exCfgInitFails)]
      (by decide)).2.2⟩

/-- C8 (amended): `clearFeedbackAll()` walks the registry in its stable
iteration order strictly sequentially — each device's call settles before
the next is issued, so no two calls are ever in flight — and, provided no
registered device's `clearFeedbackAll` rejects, it invokes every registered
device exactly once, producing for each entry in order its call
immediately followed by its settlement. -/
theorem clearFeedbackAll_sequential_of_all_ok (s : ManagerState)
    (h : ∀ p ∈ s.devices, p.2.clearFeedbackResult = .ok ()) :
    InputManager.clearFeedbackAll s =
      ({ s with trace := s.trace ++ InputManager.clearTraceOf s.devices }, .ok ()) :=
  InputManager.runClearFeedback_all_ok s.devices h s

/-- Witness for C8 at a concrete input with two healthy devices: the trace
is the in-order sequence call/done for `a` then call/done for `b`. -/
theorem clearFeedbackAll_sequential_witness :
    InputManager.clearFeedbackAll exStTwo =
      ({ exStTwo with
          trace := exStTwo.trace ++ InputManager.clearTraceOf exStTwo.devices },
       .ok ()) :=
  clearFeedbackAll_sequential_of_all_ok exStTwo (by decide)

/-- Counterexample to C8 as stated: when the first registered device's
`clearFeedbackAll` rejects, the second registered device is never invoked
(no event for its instance appears) and the method rejects — contradicting
the claim that every registered device is invoked. -/
theorem clearFeedbackAll_stops_on_reject :
    InputManager.clearFeedbackAll exStClearBad =
      ({ exStClearBad with
          trace := [Ev.clearFeedbackCall exDevClearFails.instId,
            Ev.clearFeedbackDone exDevClearFails.instId false] },
       .error "clear failed") ∧
    Ev.clearFeedbackCall exDevGood.instId
      ∉ (InputManager.clearFeedbackAll exStClearBad).1.trace := by
  refine ⟨?_, by decide⟩
  simp [InputManager.clearFeedbackAll, InputManager.runClearFeedback, exStClearBad,
    exDevClearFails, exDevGood]

end Sofie
